import Mathlib

/-!
Verification development for the ai-shell interactive command-resolution flow
(src/prompt.ts). The flow is embedded shallowly as trace-producing functions:
external collaborators (completion backend, subshell executor, clipboard,
shell history, terminal prompts) appear as oracle inputs and as events in the
produced trace, while all control flow and branching is translated directly
from src/prompt.ts.
-/

namespace AiShell

/-- Whitespace test of JavaScript String.prototype.trim, per the ECMAScript
definition of WhiteSpace and LineTerminator: tab, line feed, vertical tab,
form feed, carriage return, space, no-break space, the Unicode
Space_Separator code points U+1680, U+2000 through U+200A, U+202F, U+205F and
U+3000, the line and paragraph separators U+2028 and U+2029, and the byte
order mark U+FEFF. -/
def isJsWhitespace (c : Char) : Bool :=
  c == ' ' || c == '\t' || c == '\n' || c == '\r' ||
    c == Char.ofNat 11 || c == Char.ofNat 12 || c == Char.ofNat 160 ||
    c == Char.ofNat 0x1680 ||
    c == Char.ofNat 0x2000 || c == Char.ofNat 0x2001 || c == Char.ofNat 0x2002 ||
    c == Char.ofNat 0x2003 || c == Char.ofNat 0x2004 || c == Char.ofNat 0x2005 ||
    c == Char.ofNat 0x2006 || c == Char.ofNat 0x2007 || c == Char.ofNat 0x2008 ||
    c == Char.ofNat 0x2009 || c == Char.ofNat 0x200A ||
    c == Char.ofNat 0x2028 || c == Char.ofNat 0x2029 ||
    c == Char.ofNat 0x202F || c == Char.ofNat 0x205F || c == Char.ofNat 0x3000 ||
    c == Char.ofNat 0xFEFF

/-- Shallow embedding of JavaScript String.prototype.trim: drop whitespace from
both ends of the string. Used by src/prompt.ts line 140. -/
def jsTrim (s : String) : String :=
  String.mk (((s.data.dropWhile isJsWhitespace).reverse.dropWhile isJsWhitespace).reverse)

/-- src/prompt.ts line 140: const emptyScript = script.trim() === the empty string. -/
def emptyScript (script : String) : Bool :=
  decide (jsTrim script = "")

/-- The closed set of decision-menu actions (src/prompt.ts lines 146-202).
The Run action is rendered with the label Yes in the source. -/
inductive MenuAction where
  | runIt
  | editIt
  | explainIt
  | reviseIt
  | copyIt
  | cancelIt
  deriving DecidableEq

/-- One option of the decision menu: an action tag plus its display label. -/
structure MenuOption where
  action : MenuAction
  label : String
  deriving DecidableEq

/-- Menu message of src/prompt.ts lines 143-145: framing switches from
Run this script? to Revise this script? when the script is blank.
The localization collaborator translate is modelled as the identity. -/
def menuMessage (script : String) : String :=
  bif emptyScript script then "Revise this script?" else "Run this script?"

/-- Menu options of src/prompt.ts lines 146-202: Run (labelled Yes) and Edit
are prepended only when the script is not blank; Explain, Revise, Copy and
Cancel are always appended. -/
def menuOptions (script : String) : List MenuOption :=
  (bif emptyScript script then []
   else [⟨MenuAction.runIt, "✅ Yes"⟩, ⟨MenuAction.editIt, "📝 Edit"⟩]) ++
    [⟨MenuAction.explainIt, "🤔 Explain"⟩, ⟨MenuAction.reviseIt, "🔁 Revise"⟩,
      ⟨MenuAction.copyIt, "📋 Copy"⟩, ⟨MenuAction.cancelIt, "❌ Cancel"⟩]

/-- Observable effects of one session, in order of occurrence. Backend calls,
subshell execution, clipboard and shell-history writes, terminal output and
process termination are all recorded as events. -/
inductive Event where
  | menuShown (message : String) (options : List MenuOption)
  | validationMsg (msg : String)
  | cancelMsg (msg : String)
  | exitProcess (code : Nat)
  | backendGenerate (promptText : String)
  | backendExplain (script : String) (key : String) (apiEndpoint : String)
  | backendRevise (feedback : String) (code : String) (key : String) (apiEndpoint : String)
  | present (script : String)
  | outro (msg : String)
  | historyAppend (script : String)
  | clipboardWrite (text : String)
  | printExplanation (text : String)
  deriving DecidableEq

/-- The farewell banner printed by the source on cancel and on silent-mode
completion (a dashed line with a finish flag). -/
def finishMsg : String := "-------- 🏁 --------"

/-- Outcome of one subshell execution attempt by the executor. -/
inductive ExecOutcome where
  | success
  | nonzeroExit
  | spawnFailure
  deriving DecidableEq

/-- Modelled from the spec: execaCommand of the execa collaborator (not under
src/): spawns a subshell and either completes, rejects with a nonzero-exit
error, or rejects with a spawn error. -/
def execaCommand (script : String) (o : ExecOutcome) : Except String Unit :=
  match o with
  | ExecOutcome.success => Except.ok ()
  | ExecOutcome.nonzeroExit => Except.error ("nonzero exit: " ++ script)
  | ExecOutcome.spawnFailure => Except.error ("spawn failure: " ++ script)

/-- Body of the try block of runScript (src/prompt.ts lines 42-48): await the
subshell, then append the executed command to the shell-history side channel. -/
def runScriptBody (script : String) (o : ExecOutcome) : Except String (List Event) := do
  let _ ← execaCommand script o
  pure [Event.historyAppend script]

/-- runScript (src/prompt.ts lines 39-51): print the Running banner, then
try the body; the catch block swallows every error, so the result is always ok. -/
def runScript (script : String) (o : ExecOutcome) : Except String (List Event) :=
  Except.ok (Event.outro ("Running: " ++ script) ::
    (match runScriptBody script o with
     | Except.ok es => es
     | Except.error _ => []))

/-- The event list runScript contributes to the session trace. -/
def runScriptTrace (script : String) (o : ExecOutcome) : List Event :=
  match runScript script o with
  | Except.ok es => es
  | Except.error _ => []

/-- The validate callback passed to the text prompts (src/prompt.ts lines
63-65 and 85-87): an empty submission yields the validation message. -/
def validateFn (value : String) : Option String :=
  if value = "" then some "Please enter a prompt." else none

/-- Modelled from the spec: the clack text-prompt loop used by getPrompt and
promptForRevision (the prompt widget itself is an external collaborator).
Each element of the input list is one user interaction: none is a cancel
interrupt (handled by the onCancel callbacks of src/prompt.ts lines 69-72 and
91-94, which print a farewell and exit 0), some s is a submission which is
re-prompted while the validate callback rejects it. Returns the emitted
events and the accepted submission, if any. -/
def promptLoop (cancelMessage : String) : List (Option String) → List Event × Option String
  | [] => ([], none)
  | none :: _ => ([Event.cancelMsg cancelMessage, Event.exitProcess 0], none)
  | some s :: rest =>
    match validateFn s with
    | some msg => (Event.validationMsg msg :: (promptLoop cancelMessage rest).1,
        (promptLoop cancelMessage rest).2)
    | none => ([], some s)

/-- One user decision at the menu, bundled with the oracle data the resulting
branch consumes: the executor outcome for Run, the edit-box result and
executor outcome for Edit, the streamed explanation text for Explain, and
the revision-prompt interactions plus the backend reply script for Revise. -/
inductive Decision where
  | runIt (o : ExecOutcome)
  | edit (input : Option String) (o : ExecOutcome)
  | explainIt (expl : String)
  | reviseIt (subs : List (Option String)) (newScript : String)
  | copy
  | cancel
  deriving DecidableEq

/-- runOrReviseFlow (src/prompt.ts lines 133-208) together with
explanationFlow (lines 210-233) and revisionFlow (lines 235-260), driven by a
list of user decisions. The parameter info is the value of the readInfo
accessor. Modelled from the spec: readInfo (returned by getScriptAndInfo of
helpers/completion, not under src/) is the cached explanation portion of the
generation round, per spec sections 3, 4.2 and 6; the orchestrator in
src/prompt.ts threads this accessor unchanged through every recursive call,
including revisionFlow (line 259), and never writes the result of
getExplanation back into it (lines 219-231). -/
def runOrReviseFlow (key apiEndpoint : String) :
    String → String → List Decision → List Event
  | script, _, [] => [Event.menuShown (menuMessage script) (menuOptions script)]
  | script, info, d :: rest =>
    Event.menuShown (menuMessage script) (menuOptions script) ::
      match d with
      | Decision.runIt o =>
        bif emptyScript script then [] else runScriptTrace script o
      | Decision.edit input o =>
        bif emptyScript script then []
        else
          match input with
          | none => []
          | some newScript => runScriptTrace newScript o
      | Decision.explainIt expl =>
        (if info = "" then
          [Event.backendExplain script key apiEndpoint, Event.printExplanation expl]
         else []) ++ runOrReviseFlow key apiEndpoint script info rest
      | Decision.reviseIt subs newScript =>
        (promptLoop finishMsg subs).1 ++
          match (promptLoop finishMsg subs).2 with
          | none => []
          | some feedback =>
            Event.backendRevise feedback script key apiEndpoint ::
              runOrReviseFlow key apiEndpoint newScript info rest
      | Decision.copy =>
        [Event.clipboardWrite script, Event.outro "Copied to clipboard!"]
      | Decision.cancel =>
        [Event.cancelMsg finishMsg, Event.exitProcess 0]

/-- Modelled from the spec: the read-only settings bundle returned by
getConfig of helpers/config (not under src/), restricted to the properties
read by src/prompt.ts lines 104-109. -/
structure Config where
  OPENAI_KEY : String
  SILENT_MODE : Bool
  OPENAI_API_ENDPOINT : String
  MODEL : String

/-- Modelled from the spec: the result of one generation round after the
script/info extractor has split the backend response (spec section 4.2):
the runnable script and the cached explanation portion, the latter empty when
the backend returned no explanation. -/
structure GenResult where
  script : String
  info : String

/-- src/prompt.ts line 114: const thePrompt = usePrompt or getPrompt().
JavaScript truthiness: the empty string and an absent argument both fall
through to the interactive prompt. -/
def resolvePrompt (usePrompt : Option String) (subs : List (Option String)) :
    List Event × Option String :=
  match usePrompt with
  | some s => if s = "" then promptLoop "Goodbye!" subs else ([], some s)
  | none => promptLoop "Goodbye!" subs

/-- The exported prompt entry point (src/prompt.ts lines 100-131): resolve the
prompt, call the generation backend, present the script, then either
short-circuit on silent mode (explicit flag OR persisted SILENT_MODE) or enter
the decision loop. The generation backend is an oracle gen from prompt text to
extracted script/info pair. -/
def promptFlow (usePrompt : Option String) (silentMode : Bool) (cfg : Config)
    (subs : List (Option String)) (gen : String → GenResult) (ds : List Decision) :
    List Event :=
  (resolvePrompt usePrompt subs).1 ++
    match (resolvePrompt usePrompt subs).2 with
    | none => []
    | some thePrompt =>
      Event.backendGenerate thePrompt :: Event.present (gen thePrompt).script ::
        (bif silentMode || cfg.SILENT_MODE then
          [Event.outro finishMsg, Event.exitProcess 0]
         else
          runOrReviseFlow cfg.OPENAI_KEY cfg.OPENAI_API_ENDPOINT (gen thePrompt).script
            (gen thePrompt).info ds)

/-- Recognizer for decision-menu rendering events. -/
def isMenuShown : Event → Bool
  | Event.menuShown _ _ => true
  | _ => false

/-- Recognizer for generation backend calls. -/
def isBackendGenerate : Event → Bool
  | Event.backendGenerate _ => true
  | _ => false

/-- Recognizer for explanation backend calls. -/
def isBackendExplain : Event → Bool
  | Event.backendExplain _ _ _ => true
  | _ => false

/-- Recognizer for revision backend calls. -/
def isBackendRevise : Event → Bool
  | Event.backendRevise _ _ _ _ => true
  | _ => false

/-- A sample configuration with silent mode off, used to instantiate witnesses. -/
def cfgEx : Config := ⟨"KEY", false, "EP", "MODEL"⟩

/-- A sample generation backend returning a fixed script and no explanation. -/
def genEx : String → GenResult := fun _ => ⟨"ls *.js", ""⟩

/-- Dropping with a predicate that holds of every element empties the list. -/
theorem dropWhile_all (l : List Char) (h : ∀ c ∈ l, isJsWhitespace c = true) :
    l.dropWhile isJsWhitespace = [] := by
  induction l with
  | nil => rfl
  | cons c cs ih =>
    have hc : isJsWhitespace c = true := h c (List.mem_cons_self c cs)
    simp only [List.dropWhile_cons, hc, if_true]
    exact ih (fun x hx => h x (List.mem_cons_of_mem c hx))

/-- A string made of whitespace only trims to the empty string. -/
theorem jsTrim_all_ws (s : String) (h : ∀ c ∈ s.data, isJsWhitespace c = true) :
    jsTrim s = "" := by
  unfold jsTrim
  rw [dropWhile_all s.data h]
  rfl

/-- The text-prompt loop never renders a decision menu. -/
theorem promptLoop_filter_menu (cm : String) (subs : List (Option String)) :
    (promptLoop cm subs).1.filter isMenuShown = [] := by
  induction subs with
  | nil => rfl
  | cons o rest ih =>
    cases o with
    | none => rfl
    | some s =>
      by_cases hs : s = ""
      · subst hs
        simpa [promptLoop, validateFn, isMenuShown] using ih
      · simp [promptLoop, validateFn, hs]

/-- The text-prompt loop never issues a generation backend call. -/
theorem promptLoop_filter_gen (cm : String) (subs : List (Option String)) :
    (promptLoop cm subs).1.filter isBackendGenerate = [] := by
  induction subs with
  | nil => rfl
  | cons o rest ih =>
    cases o with
    | none => rfl
    | some s =>
      by_cases hs : s = ""
      · subst hs
        simpa [promptLoop, validateFn, isBackendGenerate] using ih
      · simp [promptLoop, validateFn, hs]

/-- The text-prompt loop never accepts the empty submission. -/
theorem promptLoop_ne_some_empty (cm : String) (subs : List (Option String)) :
    (promptLoop cm subs).2 ≠ some "" := by
  induction subs with
  | nil => simp [promptLoop]
  | cons o rest ih =>
    cases o with
    | none => simp [promptLoop]
    | some s =>
      by_cases hs : s = ""
      · subst hs
        simpa [promptLoop, validateFn] using ih
      · simp [promptLoop, validateFn, hs]

/-- The prompt-resolution step never renders a decision menu. -/
theorem resolvePrompt_filter_menu (up : Option String) (subs : List (Option String)) :
    (resolvePrompt up subs).1.filter isMenuShown = [] := by
  cases up with
  | none => exact promptLoop_filter_menu _ _
  | some s =>
    by_cases hs : s = "" <;> simp [resolvePrompt, hs, promptLoop_filter_menu]

/-- C2: when the script is the empty string the decision menu is framed as
Revise this script? and carries exactly the Explain, Revise, Copy and Cancel
actions, omitting Run and Edit; and for every script whatsoever the Explain,
Revise, Copy and Cancel actions are present in the menu. -/
theorem C2_menu_construction (script : String) :
    menuMessage "" = "Revise this script?" ∧
    (menuOptions "").map MenuOption.action =
      [MenuAction.explainIt, MenuAction.reviseIt, MenuAction.copyIt, MenuAction.cancelIt] ∧
    MenuAction.runIt ∉ (menuOptions "").map MenuOption.action ∧
    MenuAction.editIt ∉ (menuOptions "").map MenuOption.action ∧
    MenuAction.explainIt ∈ (menuOptions script).map MenuOption.action ∧
    MenuAction.reviseIt ∈ (menuOptions script).map MenuOption.action ∧
    MenuAction.copyIt ∈ (menuOptions script).map MenuOption.action ∧
    MenuAction.cancelIt ∈ (menuOptions script).map MenuOption.action := by
  refine ⟨by decide, by decide, by decide, by decide, ?_, ?_, ?_, ?_⟩ <;>
    cases hb : emptyScript script <;> simp [menuOptions, hb]

/-- C4 counterexample: with current script ls and cached info empty, choosing
Edit and cancelling the edit input (with further decisions still queued)
yields a trace containing exactly one decision menu: control does not return
to a second decision menu, contradicting the claim that the flow re-enters
the menu after a cancelled edit. No run and no history append occur. -/
theorem C4_counterexample :
    runOrReviseFlow "KEY" "EP" "ls" ""
        [Decision.edit none ExecOutcome.success, Decision.runIt ExecOutcome.success] =
      [Event.menuShown "Run this script?" (menuOptions "ls")] ∧
    ((runOrReviseFlow "KEY" "EP" "ls" ""
        [Decision.edit none ExecOutcome.success,
          Decision.runIt ExecOutcome.success]).filter isMenuShown).length = 1 := by
  decide

/-- C4 as amended: choosing Edit and then cancelling the edit input runs
nothing and leaves the current script untouched, but control does NOT return
to a decision menu: the decision loop ends at the single menu already shown,
regardless of the script and of any queued decisions. -/
theorem C4_edit_cancel_ends_session (key ep script info : String) (o : ExecOutcome)
    (rest : List Decision) :
    runOrReviseFlow key ep script info (Decision.edit none o :: rest) =
      [Event.menuShown (menuMessage script) (menuOptions script)] := by
  cases hb : emptyScript script <;> simp [runOrReviseFlow, hb]

/-- C6: for every script and every executor outcome, runScript returns ok
(nonzero exit and spawn failure are both swallowed by the catch block), and
the executed command is appended to the shell history exactly when the
subshell execution succeeds. -/
theorem C6_runScript_swallows_and_history (script : String) (o : ExecOutcome) :
    ∃ es, runScript script o = Except.ok es ∧
      (Event.historyAppend script ∈ es ↔ o = ExecOutcome.success) := by
  cases o <;> exact ⟨_, rfl, by simp [runScriptBody, execaCommand]⟩

/-- C8: choosing Cancel at the decision menu prints the farewell banner and
exits the process with code 0 immediately, ignoring any queued decisions;
cancelling a text prompt (the initial prompt with its Goodbye farewell, or
the revision prompt inside the flow) likewise prints a farewell and exits
with code 0. -/
theorem C8_cancel_exits_zero (key ep script info m newScript : String)
    (rest : List Decision) (subs : List (Option String)) (sm : Bool) (cfg : Config)
    (gen : String → GenResult) (ds : List Decision) :
    runOrReviseFlow key ep script info (Decision.cancel :: rest) =
      [Event.menuShown (menuMessage script) (menuOptions script),
        Event.cancelMsg finishMsg, Event.exitProcess 0] ∧
    promptLoop m (none :: subs) = ([Event.cancelMsg m, Event.exitProcess 0], none) ∧
    promptFlow none sm cfg (none :: subs) gen ds =
      [Event.cancelMsg "Goodbye!", Event.exitProcess 0] ∧
    runOrReviseFlow key ep script info (Decision.reviseIt (none :: subs) newScript :: rest) =
      [Event.menuShown (menuMessage script) (menuOptions script),
        Event.cancelMsg finishMsg, Event.exitProcess 0] := by
  exact ⟨rfl, rfl, rfl, rfl⟩

/-- C9: the blank-script test at the decision menu is trim-based: every script
consisting solely of whitespace characters counts as empty, so the menu is
framed as Revise this script? and carries only the Explain, Revise, Copy and
Cancel actions. -/
theorem C9_whitespace_script_menu (s : String)
    (h : ∀ c ∈ s.data, isJsWhitespace c = true) :
    emptyScript s = true ∧
    menuMessage s = "Revise this script?" ∧
    (menuOptions s).map MenuOption.action =
      [MenuAction.explainIt, MenuAction.reviseIt, MenuAction.copyIt, MenuAction.cancelIt] := by
  have he : emptyScript s = true := by
    simp [emptyScript, jsTrim_all_ws s h]
  exact ⟨he, by simp [menuMessage, he], by simp [menuOptions, he]⟩

/-- C9 witness: a concrete whitespace-only script mixing ASCII whitespace
(space, tab, newline) with Unicode Space_Separator code points (en quad
U+2000, ideographic space U+3000), the paragraph separator U+2029 and the
narrow no-break space U+202F. -/
theorem C9_witness :
    emptyScript " \t\n\u2000\u3000\u2029\u202F " = true ∧
    menuMessage " \t\n\u2000\u3000\u2029\u202F " = "Revise this script?" ∧
    (menuOptions " \t\n\u2000\u3000\u2029\u202F ").map MenuOption.action =
      [MenuAction.explainIt, MenuAction.reviseIt, MenuAction.copyIt, MenuAction.cancelIt] :=
  C9_whitespace_script_menu " \t\n\u2000\u3000\u2029\u202F " (by decide)

/-- C1 counterexample: generation produced script ls with a non-empty cached
explanation; the user revises (backend answers ls -la) and then chooses
Explain. The resulting trace contains a revision backend call but NO
explanation backend call: the pre-revision cached explanation is still in
force, contradicting the claim that the next Explain after a Revise round
always issues a fresh backend explanation request. -/
theorem C1_counterexample :
    (runOrReviseFlow "KEY" "EP" "ls" "lists files"
        [Decision.reviseIt [some "include sizes"] "ls -la",
          Decision.explainIt "expl"]).filter isBackendExplain = [] ∧
    (runOrReviseFlow "KEY" "EP" "ls" "lists files"
        [Decision.reviseIt [some "include sizes"] "ls -la",
          Decision.explainIt "expl"]).filter isBackendRevise =
      [Event.backendRevise "include sizes" "ls" "KEY" "EP"] := by
  decide

/-- C1 as amended: after a Revise round the new script replaces the current
script (all later menus and backend calls are scoped to it), but the cached
explanation is NOT discarded: the same info accessor value is threaded
through, so the following Explain issues a fresh backend explanation request
scoped to the new script only when that cached info is empty, and issues no
request when the pre-revision generation carried a non-empty explanation. -/
theorem C1_revision_keeps_explanation_cache
    (key ep script info newScript feedback expl : String) (rest : List Decision)
    (h : feedback ≠ "") :
    runOrReviseFlow key ep script info
        (Decision.reviseIt [some feedback] newScript :: Decision.explainIt expl :: rest) =
      Event.menuShown (menuMessage script) (menuOptions script) ::
        Event.backendRevise feedback script key ep ::
        Event.menuShown (menuMessage newScript) (menuOptions newScript) ::
        ((if info = "" then
            [Event.backendExplain newScript key ep, Event.printExplanation expl]
          else []) ++ runOrReviseFlow key ep newScript info rest) := by
  have hv : validateFn feedback = none := by simp [validateFn, h]
  simp [runOrReviseFlow, promptLoop, hv]

/-- C1 witness: the amended statement at the concrete counterexample session. -/
theorem C1_witness :
    runOrReviseFlow "KEY" "EP" "ls" "lists files"
        (Decision.reviseIt [some "include sizes"] "ls -la" ::
          Decision.explainIt "expl" :: []) =
      Event.menuShown (menuMessage "ls") (menuOptions "ls") ::
        Event.backendRevise "include sizes" "ls" "KEY" "EP" ::
        Event.menuShown (menuMessage "ls -la") (menuOptions "ls -la") ::
        ((if ("lists files" : String) = "" then
            [Event.backendExplain "ls -la" "KEY" "EP", Event.printExplanation "expl"]
          else []) ++ runOrReviseFlow "KEY" "EP" "ls -la" "lists files" []) :=
  C1_revision_keeps_explanation_cache "KEY" "EP" "ls" "lists files" "ls -la"
    "include sizes" "expl" [] (by decide)

/-- C5 counterexample: with an empty cached explanation, choosing Explain
twice on the same script version issues TWO explanation backend calls, so
Explain is not idempotent with respect to backend calls within one script
version: the explanation fetched by the first Explain is never written back
into the cache. -/
theorem C5_counterexample :
    (runOrReviseFlow "KEY" "EP" "ls *.js" ""
        [Decision.explainIt "a", Decision.explainIt "b"]).filter isBackendExplain =
      [Event.backendExplain "ls *.js" "KEY" "EP",
        Event.backendExplain "ls *.js" "KEY" "EP"] ∧
    ¬ ((runOrReviseFlow "KEY" "EP" "ls *.js" ""
        [Decision.explainIt "a", Decision.explainIt "b"]).filter
          isBackendExplain).length ≤ 1 := by
  decide

/-- C5 as amended: choosing Explain issues an explanation backend request
scoped to the current script exactly when the cached explanation is empty,
and re-enters the decision loop either way; with a non-empty cache (written
here as an arbitrary string prefixed by x) a single Explain issues no backend
call, but with an empty cache every repetition of Explain issues a fresh
backend call, because the fetched explanation is never cached. -/
theorem C5_explain_cache_behavior (key ep script info expl : String)
    (rest : List Decision) :
    runOrReviseFlow key ep script info (Decision.explainIt expl :: rest) =
      Event.menuShown (menuMessage script) (menuOptions script) ::
        ((if info = "" then
            [Event.backendExplain script key ep, Event.printExplanation expl]
          else []) ++ runOrReviseFlow key ep script info rest) ∧
    (runOrReviseFlow key ep script ("x" ++ info)
        [Decision.explainIt expl]).filter isBackendExplain = [] ∧
    (runOrReviseFlow key ep script ""
        [Decision.explainIt expl, Decision.explainIt expl]).filter isBackendExplain =
      [Event.backendExplain script key ep, Event.backendExplain script key ep] := by
  refine ⟨by simp [runOrReviseFlow], ?_, ?_⟩
  · have hne : ("x" ++ info) ≠ "" := by
      intro hcon
      have hd : ("x" ++ info).data = ("" : String).data := congrArg String.data hcon
      simp [String.data_append] at hd
    simp [runOrReviseFlow, hne, isBackendExplain, isMenuShown]
  · simp [runOrReviseFlow, isBackendExplain, isMenuShown]

/-- C3: when silent mode is active (the explicit flag OR the persisted
SILENT_MODE configuration flag), the session trace contains no decision menu
at all, and with a non-empty initial prompt the whole trace is exactly:
generation call, script presentation, finish banner, exit 0. -/
theorem C3_silent_mode_short_circuit (up : Option String) (sm : Bool) (cfg : Config)
    (subs : List (Option String)) (gen : String → GenResult) (ds : List Decision)
    (q : String) (hq : q ≠ "") (h : (sm || cfg.SILENT_MODE) = true) :
    (promptFlow up sm cfg subs gen ds).filter isMenuShown = [] ∧
    promptFlow (some q) sm cfg subs gen ds =
      [Event.backendGenerate q, Event.present (gen q).script, Event.outro finishMsg,
        Event.exitProcess 0] := by
  constructor
  · simp only [promptFlow]
    rw [List.filter_append, resolvePrompt_filter_menu up subs, List.nil_append]
    cases hr : (resolvePrompt up subs).2 with
    | none => rfl
    | some t => simp [h, isMenuShown]
  · simp only [promptFlow, resolvePrompt]
    rw [if_neg hq]
    simp [h]

/-- C3 witness: silent mode via the explicit flag, with a non-empty initial
prompt and a queued decision that is consequently never consumed. -/
theorem C3_witness :
    (promptFlow (some "list js files") true cfgEx [] genEx
        [Decision.cancel]).filter isMenuShown = [] ∧
    promptFlow (some "list js files") true cfgEx [] genEx [Decision.cancel] =
      [Event.backendGenerate "list js files",
        Event.present (genEx "list js files").script, Event.outro finishMsg,
        Event.exitProcess 0] :=
  C3_silent_mode_short_circuit (some "list js files") true cfgEx [] genEx
    [Decision.cancel] "list js files" (by decide) rfl

/-- C7: the empty submission is rejected by the validate callback with the
message Please enter a prompt., producing a validation event and a re-prompt
whose outcome is that of the remaining interactions; the prompt loop never
issues a generation call and never accepts the empty string, and a non-empty
submission is accepted immediately. This covers both the initial prompt and
the revision prompt, which share the validate callback. -/
theorem C7_prompt_validation (m s : String) (rest subs : List (Option String))
    (h : s ≠ "") :
    validateFn "" = some "Please enter a prompt." ∧
    promptLoop m (some "" :: rest) =
      (Event.validationMsg "Please enter a prompt." :: (promptLoop m rest).1,
        (promptLoop m rest).2) ∧
    (promptLoop m subs).1.filter isBackendGenerate = [] ∧
    (promptLoop m subs).2 ≠ some "" ∧
    promptLoop m (some s :: rest) = ([], some s) := by
  refine ⟨rfl, rfl, promptLoop_filter_gen m subs, promptLoop_ne_some_empty m subs, ?_⟩
  simp [promptLoop, validateFn, h]

/-- C7 witness: a session that submits the empty prompt, is re-prompted, and
then submits a real prompt. -/
theorem C7_witness :
    validateFn "" = some "Please enter a prompt." ∧
    promptLoop "Goodbye!" (some "" :: [some "list js files"]) =
      (Event.validationMsg "Please enter a prompt." ::
          (promptLoop "Goodbye!" [some "list js files"]).1,
        (promptLoop "Goodbye!" [some "list js files"]).2) ∧
    (promptLoop "Goodbye!" [some "", some "list js files"]).1.filter
        isBackendGenerate = [] ∧
    (promptLoop "Goodbye!" [some "", some "list js files"]).2 ≠ some "" ∧
    promptLoop "Goodbye!" (some "list js files" :: [some "list js files"]) =
      ([], some "list js files") :=
  C7_prompt_validation "Goodbye!" "list js files" [some "list js files"]
    [some "", some "list js files"] (by decide)

/-- C10: a non-empty initial prompt argument skips the interactive prompt step
entirely (the trace is independent of any prompt-box interactions and begins
directly with the generation call on that argument), while an empty-string
initial prompt behaves exactly as if no initial prompt was supplied. -/
theorem C10_initial_prompt_argument (s : String) (h : s ≠ "") (sm : Bool)
    (cfg : Config) (subs : List (Option String)) (gen : String → GenResult)
    (ds : List Decision) :
    promptFlow (some s) sm cfg subs gen ds =
      Event.backendGenerate s :: Event.present (gen s).script ::
        (bif sm || cfg.SILENT_MODE then [Event.outro finishMsg, Event.exitProcess 0]
         else
          runOrReviseFlow cfg.OPENAI_KEY cfg.OPENAI_API_ENDPOINT (gen s).script
            (gen s).info ds) ∧
    promptFlow (some "") sm cfg subs gen ds = promptFlow none sm cfg subs gen ds := by
  constructor
  · simp [promptFlow, resolvePrompt, h]
  · simp [promptFlow, resolvePrompt]

/-- C10 witness: a non-empty initial prompt with pending prompt-box
interactions that are skipped, and the empty initial prompt equivalence. -/
theorem C10_witness :
    promptFlow (some "list js files") false cfgEx [some "other"] genEx [] =
      Event.backendGenerate "list js files" ::
        Event.present (genEx "list js files").script ::
        (bif false || cfgEx.SILENT_MODE then
          [Event.outro finishMsg, Event.exitProcess 0]
         else
          runOrReviseFlow cfgEx.OPENAI_KEY cfgEx.OPENAI_API_ENDPOINT
            (genEx "list js files").script (genEx "list js files").info []) ∧
    promptFlow (some "") false cfgEx [some "other"] genEx [] =
      promptFlow none false cfgEx [some "other"] genEx [] :=
  C10_initial_prompt_argument "list js files" (by decide) false cfgEx
    [some "other"] genEx []

end AiShell
